import Mathlib

set_option maxRecDepth 100000

/-!
Verification of the command-construction logic of `kallisto_quant.py`
(ENCODE rna-seq-pipeline, kallisto quantification step).

The script builds a kallisto command line as follows: a class hierarchy
(`KallistoQuant` with subclasses `KallistoQuantSingleEnd` and
`KallistoQuantPairedEnd`) stores the caller-supplied fields, maps the
strandedness label to a kallisto flag through a dict lookup
(`parse_strandedness`), formats a fixed command template string with the
field values, and splits the formatted string into an argument vector with
`shlex.split`.  `run` then spawns the external process on that vector.

This file embeds that logic shallowly:
  * `shlexRun` / `shlexSplit` model Python's `shlex.split` (POSIX mode,
    whitespace splitting, single/double quotes, backslash escapes;
    a lexing error such as an unterminated quote yields `none`).
  * `parse_strandedness` models the dict lookup (`none` models the
    `KeyError` raised for an unrecognized key).
  * `formatSE` / `formatPE` are the two command templates after Python's
    line-continuation processing (each continuation leaves five spaces
    between the surrounding tokens), with the field values substituted the
    way `str.format` does.
  * `mkSingleEnd` / `mkPairedEnd` model the two constructors, including the
    single-ended length-1 assertion (whose failure logs and exits) and the
    paired-ended direct indexing `fastqs[0]` / `fastqs[1]` (whose failure
    for short lists raises `IndexError`).
  * `get_kallisto_quant_instance` models the variant selector, and
    `mainEvents` models the observable effects of `main` (log lines and
    the single `subprocess.call` spawn).

Numeric fields: `number_of_threads` and `fragment_length` are ints in the
script and are rendered with `str`, modelled by `Int` and `toString`.
`sd_of_fragment_length` is only ever rendered into the template; it is
modelled by the `String` that `str` produces for the supplied number.
-/

deriving instance DecidableEq for Except

namespace KallistoQuantModel

/-- The single-quote character (codepoint 39). -/
def squote : Char := Char.ofNat 39

/-- The double-quote character (codepoint 34). -/
def dquote : Char := Char.ofNat 34

/-- The backslash character (codepoint 92). -/
def bslash : Char := Char.ofNat 92

/-- Whitespace characters recognized by `shlex` (its default `whitespace`). -/
def wsChar (c : Char) : Bool :=
  c == ' ' || c == Char.ofNat 9 || c == Char.ofNat 10 || c == Char.ofNat 13

/-- Characters that `shlex.split` treats specially in POSIX mode:
whitespace, the two quote characters, and the escape character. -/
def specialChar (c : Char) : Bool :=
  wsChar c || c == squote || c == dquote || c == bslash

/-- A nonempty run of characters none of which is special to `shlex`;
such a run always comes out of `shlex.split` as one unchanged token. -/
def simpleTok (l : List Char) : Bool :=
  !l.isEmpty && l.all (fun c => !specialChar c)

/-- `simpleTok` on the characters of a string. -/
def simpleStr (s : String) : Bool := simpleTok s.data

/-- Lexer state of `shlex`: outside quotes, inside single quotes, or inside
double quotes. -/
inductive LexState where
  | out
  | inSQ
  | inDQ
deriving DecidableEq

/-- The core loop of Python's `shlex.split` in POSIX mode with
`whitespace_split = True` (the configuration `shlex.split` uses).
`tok` is the token accumulated so far (`none`: no token in progress;
`some` distinguishes a quoted empty token from no token, as CPython's
`quoted` flag does), `acc` the finished tokens.  `none` as the overall
result models the `ValueError` CPython raises for an unterminated quote
or a trailing escape character. -/
def shlexRun : List Char → LexState → Option (List Char) → List (List Char) →
    Option (List (List Char))
  | [], .out, tok, acc => some (acc ++ tok.toList)
  | [], .inSQ, _, _ => none
  | [], .inDQ, _, _ => none
  | c :: cs, .out, tok, acc =>
    if wsChar c then
      match tok with
      | some t => shlexRun cs .out none (acc ++ [t])
      | none => shlexRun cs .out none acc
    else if c == squote then shlexRun cs .inSQ (some (tok.getD [])) acc
    else if c == dquote then shlexRun cs .inDQ (some (tok.getD [])) acc
    else if c == bslash then
      match cs with
      | [] => none
      | c2 :: cs2 => shlexRun cs2 .out (some (tok.getD [] ++ [c2])) acc
    else shlexRun cs .out (some (tok.getD [] ++ [c])) acc
  | c :: cs, .inSQ, tok, acc =>
    if c == squote then shlexRun cs .out tok acc
    else shlexRun cs .inSQ (some (tok.getD [] ++ [c])) acc
  | c :: cs, .inDQ, tok, acc =>
    if c == dquote then shlexRun cs .out tok acc
    else if c == bslash then
      match cs with
      | [] => none
      | c2 :: cs2 =>
        if c2 == dquote || c2 == bslash then
          shlexRun cs2 .inDQ (some (tok.getD [] ++ [c2])) acc
        else
          shlexRun cs2 .inDQ (some (tok.getD [] ++ [bslash, c2])) acc
    else shlexRun cs .inDQ (some (tok.getD [] ++ [c])) acc

/-- Model of Python's `shlex.split` as used at the end of both
constructors: split a command string into its argument vector. -/
def shlexSplit (s : String) : Option (List String) :=
  (shlexRun s.data .out none []).map (List.map String.mk)

/-- `KallistoQuant.parse_strandedness`: the dict lookup
`{'forward': '--fr-stranded', 'reverse': '--rf-stranded', 'unstranded': ''}[strandedness]`.
`none` models the `KeyError` raised when the key is absent. -/
def parse_strandedness (strandedness : String) : Option String :=
  if strandedness = "forward" then some "--fr-stranded"
  else if strandedness = "reverse" then some "--rf-stranded"
  else if strandedness = "unstranded" then some ""
  else none

/-- `KallistoQuantSingleEnd.command_template` with the fields substituted:
the Python triple-quoted literal uses a backslash line continuation after
each field, so each `{field} \`-newline-indent becomes the field value
followed by five spaces. -/
def formatSE (path_to_index output_dir number_of_threads strandedness_direction
    fragment_length sd_of_fragment_length fastq : String) : String :=
  "kallisto quant -i " ++ path_to_index ++ "     -o " ++ output_dir ++
  "     -t " ++ number_of_threads ++ "     --plaintext     " ++
  strandedness_direction ++ "     --single     -l " ++ fragment_length ++
  "     -s " ++ sd_of_fragment_length ++ "     " ++ fastq

/-- `KallistoQuantPairedEnd.command_template` with the fields substituted
(note the template's leading space before `kallisto`). -/
def formatPE (path_to_index output_dir number_of_threads strandedness_direction
    fastq1 fastq2 : String) : String :=
  " kallisto quant -i " ++ path_to_index ++ "     -o " ++ output_dir ++
  "     -t " ++ number_of_threads ++ "     --plaintext     " ++
  strandedness_direction ++ "     " ++ fastq1 ++ " " ++ fastq2

/-- The ways construction of a `KallistoQuant` object can fail in the
script. -/
inductive KQError where
  /-- `KeyError` from the `parse_strandedness` dict lookup. -/
  | keyError (key : String)
  /-- The single-ended constructor catches its failed length assertion,
  logs, and calls `sys.exit(1)` with the fixed message it logged. -/
  | exitOne (msg : String)
  /-- `IndexError` from `fastqs[0]` / `fastqs[1]` on a too-short list. -/
  | indexError
  /-- `ValueError` from `shlex.split` (unterminated quote or escape). -/
  | valueError
deriving DecidableEq

/-- The state a fully constructed `KallistoQuantSingleEnd` holds. -/
structure SingleEndConfig where
  path_to_index : String
  output_dir : String
  number_of_threads : Int
  strandedness_direction : String
  fragment_length : Int
  sd_of_fragment_length : String
  fastq : String
  command : List String
deriving DecidableEq

/-- The state a fully constructed `KallistoQuantPairedEnd` holds. -/
structure PairedEndConfig where
  path_to_index : String
  output_dir : String
  number_of_threads : Int
  strandedness_direction : String
  fastq1 : String
  fastq2 : String
  command : List String
deriving DecidableEq

/-- `KallistoQuantSingleEnd.__init__`: resolve strandedness (in the base
class, before anything else), assert `len(fastqs) == 1` (on failure the
script logs `'More than one input fastqs in single-ended mode.'` and exits
with status 1), then build `self._command` by formatting the template and
`shlex.split`-ting it. -/
def mkSingleEnd (path_to_index output_dir : String) (number_of_threads : Int)
    (strandedness : String) (fragment_length : Int)
    (sd_of_fragment_length : String) (fastqs : List String) :
    Except KQError SingleEndConfig :=
  match parse_strandedness strandedness with
  | none => .error (.keyError strandedness)
  | some sdir =>
    match fastqs with
    | [fastq] =>
      match shlexSplit (formatSE path_to_index output_dir
          (toString number_of_threads) sdir (toString fragment_length)
          sd_of_fragment_length fastq) with
      | some cmd =>
        .ok { path_to_index, output_dir, number_of_threads,
              strandedness_direction := sdir, fragment_length,
              sd_of_fragment_length, fastq, command := cmd }
      | none => .error .valueError
    | _ => .error (.exitOne "More than one input fastqs in single-ended mode.")

/-- `KallistoQuantPairedEnd.__init__`: resolve strandedness, then read
`fastqs[0]` and `fastqs[1]` directly — there is no length check, so a list
with fewer than two entries raises `IndexError` and a longer list has its
extra entries silently ignored — then format and split the template. -/
def mkPairedEnd (path_to_index output_dir : String) (number_of_threads : Int)
    (strandedness : String) (fastqs : List String) :
    Except KQError PairedEndConfig :=
  match parse_strandedness strandedness with
  | none => .error (.keyError strandedness)
  | some sdir =>
    match fastqs with
    | fastq1 :: fastq2 :: _ =>
      match shlexSplit (formatPE path_to_index output_dir
          (toString number_of_threads) sdir fastq1 fastq2) with
      | some cmd =>
        .ok { path_to_index, output_dir, number_of_threads,
              strandedness_direction := sdir, fastq1, fastq2,
              command := cmd }
      | none => .error .valueError
    | _ => .error .indexError

/-- The command vector of a single-ended construction attempt
(empty when construction failed). -/
def seCmd : Except KQError SingleEndConfig → List String
  | .ok c => c.command
  | .error _ => []

/-- The command vector of a paired-ended construction attempt
(empty when construction failed). -/
def peCmd : Except KQError PairedEndConfig → List String
  | .ok c => c.command
  | .error _ => []

/-- Whether a construction attempt succeeded. -/
def exceptOk {ε α : Type} : Except ε α → Bool
  | .ok _ => true
  | .error _ => false

/-- The last two entries of a token list. -/
def lastTwo (l : List String) : List String := l.drop (l.length - 2)

/-- Re-render a constructed single-ended configuration from its stored
fields, exactly as `__init__` rendered it (same template, same
`shlex.split`). -/
def renderSingle (c : SingleEndConfig) : Option (List String) :=
  shlexSplit (formatSE c.path_to_index c.output_dir
    (toString c.number_of_threads) c.strandedness_direction
    (toString c.fragment_length) c.sd_of_fragment_length c.fastq)

/-- Re-render a constructed paired-ended configuration from its stored
fields. -/
def renderPaired (c : PairedEndConfig) : Option (List String) :=
  shlexSplit (formatPE c.path_to_index c.output_dir
    (toString c.number_of_threads) c.strandedness_direction
    c.fastq1 c.fastq2)

/-- The argparse namespace fields `main` reads. -/
structure Args where
  endedness : String
  path_to_index : String
  output_dir : String
  number_of_threads : Int
  strandedness : String
  fragment_length : Int
  sd_of_fragment_length : String
  fastqs : List String
deriving DecidableEq

/-- A constructed quantifier object of either class. -/
inductive KQInstance where
  | single (c : SingleEndConfig)
  | paired (c : PairedEndConfig)
deriving DecidableEq

/-- `get_kallisto_quant_instance`: dispatch on `args.endedness`
(`'paired'` checked first, then `'single'`); any other value falls off the
end of the `if`/`elif` chain and returns `None`. -/
def get_kallisto_quant_instance (args : Args) :
    Option (Except KQError KQInstance) :=
  if args.endedness = "paired" then
    some ((mkPairedEnd args.path_to_index args.output_dir
      args.number_of_threads args.strandedness args.fastqs).map .paired)
  else if args.endedness = "single" then
    some ((mkSingleEnd args.path_to_index args.output_dir
      args.number_of_threads args.strandedness args.fragment_length
      args.sd_of_fragment_length args.fastqs).map .single)
  else none

/-- The command vector held by a constructed instance. -/
def instCommand : KQInstance → List String
  | .single c => c.command
  | .paired c => c.command

/-- The observable side effects of the script relevant to the fail-fast
claims: log lines written during construction or `run`, and the one
`subprocess.call` spawn in `run`. -/
inductive Event where
  | logError (msg : String)
  | logInfo (msg : String)
  | spawn (cmd : List String)
deriving DecidableEq

/-- Whether an event is a process spawn. -/
def Event.isSpawn : Event → Bool
  | .spawn _ => true
  | _ => false

/-- The side effects emitted while `get_kallisto_quant_instance` constructs
the object: the only one is the `logger.exception` line on the single-ended
length-assertion failure (the `KeyError` / `IndexError` paths raise before
reaching any logging call, and the paired-ended constructor logs nothing). -/
def constructEvents (args : Args) : List Event :=
  if args.endedness = "paired" then []
  else if args.endedness = "single" then
    match parse_strandedness args.strandedness with
    | none => []
    | some _ =>
      match args.fastqs with
      | [_] => []
      | _ => [.logError "More than one input fastqs in single-ended mode."]
  else []

/-- `KallistoQuant.run`: log the joined command, then `subprocess.call` it. -/
def runEvents (inst : KQInstance) : List Event :=
  [.logInfo (String.intercalate " " (instCommand inst)),
   .spawn (instCommand inst)]

/-- The side effects of `main(args)`: construction effects, then — only
when a fully validated instance was produced — the effects of `run`. -/
def mainEvents (args : Args) : List Event :=
  constructEvents args ++
    match get_kallisto_quant_instance args with
    | some (.ok inst) => runEvents inst
    | _ => []

/-- The command of the instance `main` would run, when construction
produced one. -/
def instCommandOpt (args : Args) : Option (List String) :=
  match get_kallisto_quant_instance args with
  | some (.ok inst) => some (instCommand inst)
  | _ => none

/-! ### Lemmas about the shlex model -/

lemma data_append (a b : String) : (a ++ b).data = a.data ++ b.data := rfl

lemma mk_data (s : String) : String.mk s.data = s := rfl

lemma specialChar_false (c : Char) (h : specialChar c = false) :
    wsChar c = false ∧ (c == squote) = false ∧ (c == dquote) = false ∧
      (c == bslash) = false := by
  simp only [specialChar, Bool.or_eq_false_iff] at h
  exact ⟨h.1.1.1, h.1.1.2, h.1.2, h.2⟩

/-- Outside quotes, a run of non-special characters extends the current
token and nothing else. -/
lemma consume_some : ∀ (l : List Char), l.all (fun c => !specialChar c) = true →
    ∀ (t cs : List Char) (acc : List (List Char)),
      shlexRun (l ++ cs) .out (some t) acc = shlexRun cs .out (some (t ++ l)) acc := by
  intro l
  induction l with
  | nil => intro _ t cs acc; simp
  | cons c l ih =>
    intro hl t cs acc
    simp only [List.all_cons, Bool.and_eq_true, Bool.not_eq_true'] at hl
    obtain ⟨hc, hrest⟩ := hl
    obtain ⟨hws, hsq, hdq, hbs⟩ := specialChar_false c hc
    rw [List.cons_append, shlexRun.eq_def]
    simp only [hws, hsq, hdq, hbs, Bool.false_eq_true, if_false, Option.getD_some]
    rw [ih hrest]
    simp

/-- Outside quotes with no token in progress, a simple run becomes the
token in progress. -/
lemma consume_none (l : List Char) (hl : simpleTok l = true)
    (cs : List Char) (acc : List (List Char)) :
    shlexRun (l ++ cs) .out none acc = shlexRun cs .out (some l) acc := by
  simp only [simpleTok, Bool.and_eq_true, Bool.not_eq_true'] at hl
  obtain ⟨hne, hall⟩ := hl
  cases l with
  | nil => simp at hne
  | cons c l =>
    simp only [List.all_cons, Bool.and_eq_true, Bool.not_eq_true'] at hall
    obtain ⟨hc, hrest⟩ := hall
    obtain ⟨hws, hsq, hdq, hbs⟩ := specialChar_false c hc
    rw [List.cons_append, shlexRun.eq_def]
    simp only [hws, hsq, hdq, hbs, Bool.false_eq_true, if_false, Option.getD_none,
      List.nil_append]
    rw [consume_some l hrest]
    simp

/-- A whitespace character finishes the token in progress. -/
lemma ws_step_some (c : Char) (hc : wsChar c = true) (cs : List Char)
    (t : List Char) (acc : List (List Char)) :
    shlexRun (c :: cs) .out (some t) acc = shlexRun cs .out none (acc ++ [t]) := by
  rw [shlexRun.eq_def]
  simp only [hc, if_true]

/-- A whitespace character with no token in progress is skipped. -/
lemma ws_step_none (c : Char) (hc : wsChar c = true) (cs : List Char)
    (acc : List (List Char)) :
    shlexRun (c :: cs) .out none acc = shlexRun cs .out none acc := by
  rw [shlexRun.eq_def]
  simp only [hc, if_true]

/-- A whitespace run with no token in progress is skipped entirely. -/
lemma ws_run : ∀ (w : List Char), w.all wsChar = true →
    ∀ (cs : List Char) (acc : List (List Char)),
      shlexRun (w ++ cs) .out none acc = shlexRun cs .out none acc := by
  intro w
  induction w with
  | nil => intro _ cs acc; simp
  | cons c w ih =>
    intro hw cs acc
    simp only [List.all_cons, Bool.and_eq_true] at hw
    rw [List.cons_append, ws_step_none c hw.1]
    exact ih hw.2 cs acc

/-- A simple token followed by a whitespace run is emitted unchanged. -/
lemma token_sep (l w cs : List Char) (acc : List (List Char))
    (hl : simpleTok l = true) (hw : w ≠ []) (hws : w.all wsChar = true) :
    shlexRun (l ++ (w ++ cs)) .out none acc = shlexRun cs .out none (acc ++ [l]) := by
  rw [consume_none l hl]
  cases w with
  | nil => exact absurd rfl hw
  | cons c w =>
    simp only [List.all_cons, Bool.and_eq_true] at hws
    rw [List.cons_append, ws_step_some c hws.1]
    exact ws_run w hws.2 cs (acc ++ [l])

/-- A simple token at the end of the input is emitted unchanged. -/
lemma token_end (l : List Char) (acc : List (List Char)) (hl : simpleTok l = true) :
    shlexRun l .out none acc = some (acc ++ [l]) := by
  have h := consume_none l hl [] acc
  rw [List.append_nil] at h
  rw [h]
  rfl

/-! ### The decimal rendering of an integer is a simple token -/

lemma digitChar_lt10_not_special : ∀ k, k < 10 → specialChar (Nat.digitChar k) = false := by
  intro k hk
  interval_cases k <;> decide

lemma digitChar_mod10_not_special (n : Nat) : specialChar (Nat.digitChar (n % 10)) = false :=
  digitChar_lt10_not_special _ (Nat.mod_lt _ (by omega))

lemma toDigitsCore_all_not_special : ∀ (fuel n : Nat) (ds : List Char),
    ds.all (fun c => !specialChar c) = true →
    (Nat.toDigitsCore 10 fuel n ds).all (fun c => !specialChar c) = true := by
  intro fuel
  induction fuel with
  | zero => intro n ds h; simpa [Nat.toDigitsCore] using h
  | succ fuel ih =>
    intro n ds h
    rw [Nat.toDigitsCore]
    have hd : ((Nat.digitChar (n % 10)) :: ds).all (fun c => !specialChar c) = true := by
      simp only [List.all_cons, Bool.and_eq_true, Bool.not_eq_true']
      exact ⟨digitChar_mod10_not_special _, h⟩
    split
    · exact hd
    · exact ih _ _ hd

lemma toDigitsCore_ne_nil_of (b : Nat) : ∀ (fuel n : Nat) (ds : List Char),
    ds ≠ [] → Nat.toDigitsCore b fuel n ds ≠ [] := by
  intro fuel
  induction fuel with
  | zero => intro n ds h; simpa [Nat.toDigitsCore] using h
  | succ fuel ih =>
    intro n ds h
    rw [Nat.toDigitsCore]
    split
    · simp
    · exact ih _ _ (by simp)

lemma toDigits_ne_nil (b n : Nat) : Nat.toDigits b n ≠ [] := by
  unfold Nat.toDigits
  rw [Nat.toDigitsCore]
  split
  · simp
  · exact toDigitsCore_ne_nil_of b _ _ _ (by simp)

lemma simpleTok_of_ne_nil {l : List Char} (h1 : l ≠ [])
    (h2 : l.all (fun c => !specialChar c) = true) : simpleTok l = true := by
  cases l with
  | nil => exact absurd rfl h1
  | cons c l =>
    simp only [simpleTok, List.isEmpty_cons, Bool.not_false, Bool.true_and]
    exact h2

lemma simpleStr_natRepr (n : Nat) : simpleStr (Nat.repr n) = true := by
  show simpleTok (Nat.repr n).data = true
  have hdata : (Nat.repr n).data = Nat.toDigits 10 n := rfl
  rw [hdata]
  exact simpleTok_of_ne_nil (toDigits_ne_nil 10 n)
    (toDigitsCore_all_not_special (n+1) n [] rfl)

/-- The decimal rendering of any `Int` (what Python's `str` produces for
the `number_of_threads` and `fragment_length` fields) is a simple token. -/
lemma simpleStr_intToString (t : Int) : simpleStr (toString t) = true := by
  cases t with
  | ofNat m => exact simpleStr_natRepr m
  | negSucc m =>
    show simpleTok (toString (Int.negSucc m)).data = true
    have h : (toString (Int.negSucc m)).data = '-' :: Nat.toDigits 10 (m+1) := rfl
    rw [h]
    apply simpleTok_of_ne_nil (by simp)
    simp only [List.all_cons, Bool.and_eq_true]
    exact ⟨by decide, toDigitsCore_all_not_special (m+2) (m+1) [] rfl⟩

/-- A simple string is nonempty. -/
lemma simpleStr_ne_empty {x : String} (h : simpleStr x = true) : x ≠ "" := by
  intro he
  rw [he] at h
  simp [simpleStr, simpleTok] at h

/-! ### Rendering the templates when every field is a simple token -/

/-- Splitting the formatted single-ended template: every field becomes one
token at its template position; an empty strandedness slot contributes
nothing (its surrounding whitespace merges). -/
lemma shlexSplit_formatSE (i o t st l s f : String)
    (hi : simpleStr i = true) (ho : simpleStr o = true) (ht : simpleStr t = true)
    (hst : st = "" ∨ simpleStr st = true)
    (hl : simpleStr l = true) (hs : simpleStr s = true) (hf : simpleStr f = true) :
    shlexSplit (formatSE i o t st l s f) =
      some (["kallisto", "quant", "-i", i, "-o", o, "-t", t, "--plaintext"]
        ++ (if st = "" then [] else [st])
        ++ ["--single", "-l", l, "-s", s, f]) := by
  have hdata : (formatSE i o t st l s f).data =
      "kallisto".data ++ (" ".data ++ ("quant".data ++ (" ".data ++ ("-i".data ++ (" ".data ++ (i.data ++ ("     ".data ++ ("-o".data ++ (" ".data ++ (o.data ++ ("     ".data ++ ("-t".data ++ (" ".data ++ (t.data ++ ("     ".data ++ ("--plaintext".data ++ ("     ".data ++ (st.data ++ ("     ".data ++ ("--single".data ++ ("     ".data ++ ("-l".data ++ (" ".data ++ (l.data ++ ("     ".data ++ ("-s".data ++ (" ".data ++ (s.data ++ ("     ".data ++ (f.data)))))))))))))))))))))))))))))) := by
    simp only [formatSE, data_append, List.append_assoc]
    rfl
  rw [shlexSplit, hdata]
  rcases hst with hste | hsts
  · subst hste
    rw [if_pos rfl]
    have hnil : ("" : String).data = [] := rfl
    rw [hnil, List.nil_append]
    rw [token_sep "kallisto".data " ".data _ _ (by decide) (by decide) (by decide)]
    rw [token_sep "quant".data " ".data _ _ (by decide) (by decide) (by decide)]
    rw [token_sep "-i".data " ".data _ _ (by decide) (by decide) (by decide)]
    rw [token_sep i.data "     ".data _ _ hi (by decide) (by decide)]
    rw [token_sep "-o".data " ".data _ _ (by decide) (by decide) (by decide)]
    rw [token_sep o.data "     ".data _ _ ho (by decide) (by decide)]
    rw [token_sep "-t".data " ".data _ _ (by decide) (by decide) (by decide)]
    rw [token_sep t.data "     ".data _ _ ht (by decide) (by decide)]
    rw [token_sep "--plaintext".data "     ".data _ _ (by decide) (by decide) (by decide)]
    rw [ws_run "     ".data (by decide)]
    rw [token_sep "--single".data "     ".data _ _ (by decide) (by decide) (by decide)]
    rw [token_sep "-l".data " ".data _ _ (by decide) (by decide) (by decide)]
    rw [token_sep l.data "     ".data _ _ hl (by decide) (by decide)]
    rw [token_sep "-s".data " ".data _ _ (by decide) (by decide) (by decide)]
    rw [token_sep s.data "     ".data _ _ hs (by decide) (by decide)]
    rw [token_end f.data _ hf]
    simp [mk_data]
  · rw [if_neg (simpleStr_ne_empty hsts)]
    rw [token_sep "kallisto".data " ".data _ _ (by decide) (by decide) (by decide)]
    rw [token_sep "quant".data " ".data _ _ (by decide) (by decide) (by decide)]
    rw [token_sep "-i".data " ".data _ _ (by decide) (by decide) (by decide)]
    rw [token_sep i.data "     ".data _ _ hi (by decide) (by decide)]
    rw [token_sep "-o".data " ".data _ _ (by decide) (by decide) (by decide)]
    rw [token_sep o.data "     ".data _ _ ho (by decide) (by decide)]
    rw [token_sep "-t".data " ".data _ _ (by decide) (by decide) (by decide)]
    rw [token_sep t.data "     ".data _ _ ht (by decide) (by decide)]
    rw [token_sep "--plaintext".data "     ".data _ _ (by decide) (by decide) (by decide)]
    rw [token_sep st.data "     ".data _ _ hsts (by decide) (by decide)]
    rw [token_sep "--single".data "     ".data _ _ (by decide) (by decide) (by decide)]
    rw [token_sep "-l".data " ".data _ _ (by decide) (by decide) (by decide)]
    rw [token_sep l.data "     ".data _ _ hl (by decide) (by decide)]
    rw [token_sep "-s".data " ".data _ _ (by decide) (by decide) (by decide)]
    rw [token_sep s.data "     ".data _ _ hs (by decide) (by decide)]
    rw [token_end f.data _ hf]
    simp [mk_data]

/-- Splitting the formatted paired-ended template: the template's leading
space is skipped, every field becomes one token at its position, and the
two fastq paths are the final two tokens in order. -/
lemma shlexSplit_formatPE (i o t st f1 f2 : String)
    (hi : simpleStr i = true) (ho : simpleStr o = true) (ht : simpleStr t = true)
    (hst : st = "" ∨ simpleStr st = true)
    (h1 : simpleStr f1 = true) (h2 : simpleStr f2 = true) :
    shlexSplit (formatPE i o t st f1 f2) =
      some (["kallisto", "quant", "-i", i, "-o", o, "-t", t, "--plaintext"]
        ++ (if st = "" then [] else [st])
        ++ [f1, f2]) := by
  have hdata : (formatPE i o t st f1 f2).data =
      " ".data ++ ("kallisto".data ++ (" ".data ++ ("quant".data ++ (" ".data ++ ("-i".data ++ (" ".data ++ (i.data ++ ("     ".data ++ ("-o".data ++ (" ".data ++ (o.data ++ ("     ".data ++ ("-t".data ++ (" ".data ++ (t.data ++ ("     ".data ++ ("--plaintext".data ++ ("     ".data ++ (st.data ++ ("     ".data ++ (f1.data ++ (" ".data ++ (f2.data))))))))))))))))))))))) := by
    simp only [formatPE, data_append, List.append_assoc]
    rfl
  rw [shlexSplit, hdata]
  rcases hst with hste | hsts
  · subst hste
    rw [if_pos rfl]
    have hnil : ("" : String).data = [] := rfl
    rw [hnil, List.nil_append]
    rw [ws_run " ".data (by decide)]
    rw [token_sep "kallisto".data " ".data _ _ (by decide) (by decide) (by decide)]
    rw [token_sep "quant".data " ".data _ _ (by decide) (by decide) (by decide)]
    rw [token_sep "-i".data " ".data _ _ (by decide) (by decide) (by decide)]
    rw [token_sep i.data "     ".data _ _ hi (by decide) (by decide)]
    rw [token_sep "-o".data " ".data _ _ (by decide) (by decide) (by decide)]
    rw [token_sep o.data "     ".data _ _ ho (by decide) (by decide)]
    rw [token_sep "-t".data " ".data _ _ (by decide) (by decide) (by decide)]
    rw [token_sep t.data "     ".data _ _ ht (by decide) (by decide)]
    rw [token_sep "--plaintext".data "     ".data _ _ (by decide) (by decide) (by decide)]
    rw [ws_run "     ".data (by decide)]
    rw [token_sep f1.data " ".data _ _ h1 (by decide) (by decide)]
    rw [token_end f2.data _ h2]
    simp [mk_data]
  · rw [if_neg (simpleStr_ne_empty hsts)]
    rw [ws_run " ".data (by decide)]
    rw [token_sep "kallisto".data " ".data _ _ (by decide) (by decide) (by decide)]
    rw [token_sep "quant".data " ".data _ _ (by decide) (by decide) (by decide)]
    rw [token_sep "-i".data " ".data _ _ (by decide) (by decide) (by decide)]
    rw [token_sep i.data "     ".data _ _ hi (by decide) (by decide)]
    rw [token_sep "-o".data " ".data _ _ (by decide) (by decide) (by decide)]
    rw [token_sep o.data "     ".data _ _ ho (by decide) (by decide)]
    rw [token_sep "-t".data " ".data _ _ (by decide) (by decide) (by decide)]
    rw [token_sep t.data "     ".data _ _ ht (by decide) (by decide)]
    rw [token_sep "--plaintext".data "     ".data _ _ (by decide) (by decide) (by decide)]
    rw [token_sep st.data "     ".data _ _ hsts (by decide) (by decide)]
    rw [token_sep f1.data " ".data _ _ h1 (by decide) (by decide)]
    rw [token_end f2.data _ h2]
    simp [mk_data]

/-! ### Constructor-level characterizations -/

/-- `mkSingleEnd` on a one-element fastq list whose fields are simple
tokens: the full resulting configuration, command included. -/
lemma mkSingleEnd_eq (i o : String) (tn : Int) (strand d : String) (fl : Int)
    (sd f : String)
    (hd : parse_strandedness strand = some d)
    (hi : simpleStr i = true) (ho : simpleStr o = true)
    (hdd : d = "" ∨ simpleStr d = true)
    (hsd : simpleStr sd = true) (hf : simpleStr f = true) :
    mkSingleEnd i o tn strand fl sd [f] =
      .ok { path_to_index := i, output_dir := o, number_of_threads := tn,
            strandedness_direction := d, fragment_length := fl,
            sd_of_fragment_length := sd, fastq := f,
            command := ["kallisto", "quant", "-i", i, "-o", o, "-t", toString tn,
                "--plaintext"] ++ (if d = "" then [] else [d])
              ++ ["--single", "-l", toString fl, "-s", sd, f] } := by
  unfold mkSingleEnd
  simp only [hd]
  rw [shlexSplit_formatSE i o (toString tn) d (toString fl) sd f hi ho
    (simpleStr_intToString tn) hdd (simpleStr_intToString fl) hsd hf]

/-- `mkSingleEnd` fails by logging and exiting whenever the fastq list does
not have exactly one element (with a fixed message, even for an empty
list); the strandedness lookup happens first. -/
lemma mkSingleEnd_exit (i o : String) (tn : Int) (strand d : String) (fl : Int)
    (sd : String) (fastqs : List String)
    (hd : parse_strandedness strand = some d) (hlen : fastqs.length ≠ 1) :
    mkSingleEnd i o tn strand fl sd fastqs =
      .error (.exitOne "More than one input fastqs in single-ended mode.") := by
  unfold mkSingleEnd
  simp only [hd]
  rcases fastqs with _ | ⟨a, _ | ⟨b, rest⟩⟩
  · rfl
  · exact absurd rfl hlen
  · rfl

/-- `mkPairedEnd` on a fastq list with at least two simple entries: the
full resulting configuration; entries beyond the first two are ignored. -/
lemma mkPairedEnd_eq (i o : String) (tn : Int) (strand d : String)
    (f1 f2 : String) (rest : List String)
    (hd : parse_strandedness strand = some d)
    (hi : simpleStr i = true) (ho : simpleStr o = true)
    (hdd : d = "" ∨ simpleStr d = true)
    (h1 : simpleStr f1 = true) (h2 : simpleStr f2 = true) :
    mkPairedEnd i o tn strand (f1 :: f2 :: rest) =
      .ok { path_to_index := i, output_dir := o, number_of_threads := tn,
            strandedness_direction := d, fastq1 := f1, fastq2 := f2,
            command := ["kallisto", "quant", "-i", i, "-o", o, "-t", toString tn,
                "--plaintext"] ++ (if d = "" then [] else [d]) ++ [f1, f2] } := by
  unfold mkPairedEnd
  simp only [hd]
  rw [shlexSplit_formatPE i o (toString tn) d f1 f2 hi ho
    (simpleStr_intToString tn) hdd h1 h2]

/-- `mkPairedEnd` fails with an index error on lists of fewer than two
entries (there is no length assertion; `fastqs[1]` simply raises). -/
lemma mkPairedEnd_short (i o : String) (tn : Int) (strand d : String)
    (fastqs : List String)
    (hd : parse_strandedness strand = some d) (hlen : fastqs.length < 2) :
    mkPairedEnd i o tn strand fastqs = .error .indexError := by
  unfold mkPairedEnd
  simp only [hd]
  rcases fastqs with _ | ⟨a, _ | ⟨b, rest⟩⟩
  · rfl
  · rfl
  · simp only [List.length_cons] at hlen
    omega

/-! ### Claim C1 -/

/-- C1 counterexample: constructing a paired-ended configuration with a
three-element input file list succeeds (the constructor performs no length
check), refuting the claim that 3 or more inputs fail with
`InvalidInputCount`. -/
theorem c1_counterexample :
    exceptOk (mkPairedEnd "idx" "out" 2 "unstranded"
      ["a.fq", "b.fq", "c.fq"]) = true := by
  decide

/-- C1 (amended): with fewer than two input files the paired-ended
constructor fails — with an index error from `fastqs[1]`, not with an
`InvalidInputCount` check — and with two or more (simple) input files it
succeeds, using the first two entries in the order supplied and silently
ignoring any further entries. -/
theorem c1_amended (i o : String) (tn : Int) (strand d : String)
    (short : List String) (f1 f2 : String) (rest : List String)
    (hd : parse_strandedness strand = some d)
    (hshort : short.length < 2)
    (hi : simpleStr i = true) (ho : simpleStr o = true)
    (hdd : d = "" ∨ simpleStr d = true)
    (h1 : simpleStr f1 = true) (h2 : simpleStr f2 = true) :
    mkPairedEnd i o tn strand short = .error .indexError ∧
    mkPairedEnd i o tn strand (f1 :: f2 :: rest) =
      .ok { path_to_index := i, output_dir := o, number_of_threads := tn,
            strandedness_direction := d, fastq1 := f1, fastq2 := f2,
            command := ["kallisto", "quant", "-i", i, "-o", o, "-t", toString tn,
                "--plaintext"] ++ (if d = "" then [] else [d]) ++ [f1, f2] } :=
  ⟨mkPairedEnd_short i o tn strand d short hd hshort,
   mkPairedEnd_eq i o tn strand d f1 f2 rest hd hi ho hdd h1 h2⟩

/-- C1 witness: the amended claim at a concrete input (one-element list
fails with the index error; a three-element list succeeds on the first
two entries). -/
theorem c1_witness :
    parse_strandedness "unstranded" = some "" ∧
    (["only.fq"] : List String).length < 2 ∧
    (mkPairedEnd "idx" "out" 2 "unstranded" ["only.fq"] = .error .indexError ∧
     mkPairedEnd "idx" "out" 2 "unstranded" ["r1.fq", "r2.fq", "extra.fq"] =
       .ok { path_to_index := "idx", output_dir := "out", number_of_threads := 2,
             strandedness_direction := "", fastq1 := "r1.fq", fastq2 := "r2.fq",
             command := ["kallisto", "quant", "-i", "idx", "-o", "out", "-t", "2",
               "--plaintext", "r1.fq", "r2.fq"] }) :=
  ⟨by decide, by decide,
   (c1_amended "idx" "out" 2 "unstranded" "" ["only.fq"] "r1.fq" "r2.fq"
     ["extra.fq"] (by decide) (by decide) (by decide) (by decide) (Or.inl rfl)
     (by decide) (by decide))⟩

/-! ### Claim C2 -/

/-- C2 counterexample: the single-ended end-to-end example renders with
`kallisto` as its first token (the template starts with the program name,
and `shlex.split` keeps it), so the rendered sequence is not the claimed
15-token sequence that starts at `quant`. -/
theorem c2_counterexample :
    (mkSingleEnd "idx" "out" 4 "forward" 200 "20" ["a.fq.gz"]).map
        (fun c => c.command) ≠
      .ok ["quant", "-i", "idx", "-o", "out", "-t", "4", "--plaintext",
        "--fr-stranded", "--single", "-l", "200", "-s", "20", "a.fq.gz"] := by
  decide

/-- C2 (amended): the two end-to-end examples render exactly to the claimed
token sequences with the token `kallisto` prepended. -/
theorem c2_amended :
    (mkSingleEnd "idx" "out" 4 "forward" 200 "20" ["a.fq.gz"]).map
        (fun c => c.command) =
      .ok ["kallisto", "quant", "-i", "idx", "-o", "out", "-t", "4",
        "--plaintext", "--fr-stranded", "--single", "-l", "200", "-s", "20",
        "a.fq.gz"] ∧
    (mkPairedEnd "idx" "out" 2 "unstranded" ["r1.fq", "r2.fq"]).map
        (fun c => c.command) =
      .ok ["kallisto", "quant", "-i", "idx", "-o", "out", "-t", "2",
        "--plaintext", "r1.fq", "r2.fq"] := by
  decide

/-! ### Claim C3 -/

/-- C3 counterexample: the single-ended constructor accepts the input file
path `a b.fq`, but because the command is built by formatting a string and
re-splitting it, the path is broken at the space: the last token of the
rendered command is `b.fq`, not the path. -/
theorem c3_counterexample :
    (mkSingleEnd "idx" "out" 4 "forward" 200 "20" ["a b.fq"]).map
        (fun c => c.command.getLast?) = .ok (some "b.fq") ∧
    ("b.fq" : String) ≠ "a b.fq" := by
  decide

/-- C3 (amended): with any number of input files other than one, the
single-ended constructor fails — by logging a fixed message and exiting
with status 1, without reporting the actual and expected counts — and with
exactly one whitespace/quote/backslash-free input file it succeeds and the
file appears unmodified as the last token of the rendered command. -/
theorem c3_amended (i o : String) (tn : Int) (strand d : String) (fl : Int)
    (sd f : String) (fastqs : List String)
    (hd : parse_strandedness strand = some d)
    (hlen : fastqs.length ≠ 1)
    (hi : simpleStr i = true) (ho : simpleStr o = true)
    (hdd : d = "" ∨ simpleStr d = true)
    (hsd : simpleStr sd = true) (hf : simpleStr f = true) :
    mkSingleEnd i o tn strand fl sd fastqs =
      .error (.exitOne "More than one input fastqs in single-ended mode.") ∧
    (seCmd (mkSingleEnd i o tn strand fl sd [f])).getLast? = some f := by
  refine ⟨mkSingleEnd_exit i o tn strand d fl sd fastqs hd hlen, ?_⟩
  rw [mkSingleEnd_eq i o tn strand d fl sd f hd hi ho hdd hsd hf]
  rcases hdd with he | hne
  · subst he
    simp [seCmd]
  · rw [if_neg (simpleStr_ne_empty hne)]
    simp [seCmd]

/-- C3 witness: the amended claim at a concrete input (a two-element list
fails with the fixed exit; the file `a.fq.gz` is the last rendered token). -/
theorem c3_witness :
    parse_strandedness "forward" = some "--fr-stranded" ∧
    (["x.fq", "y.fq"] : List String).length ≠ 1 ∧
    (mkSingleEnd "idx" "out" 4 "forward" 200 "20" ["x.fq", "y.fq"] =
      .error (.exitOne "More than one input fastqs in single-ended mode.") ∧
     (seCmd (mkSingleEnd "idx" "out" 4 "forward" 200 "20" ["a.fq.gz"])).getLast? =
       some "a.fq.gz") :=
  ⟨by decide, by decide,
   (c3_amended "idx" "out" 4 "forward" "--fr-stranded" 200 "20" "a.fq.gz"
     ["x.fq", "y.fq"] (by decide) (by decide) (by decide) (by decide)
     (Or.inr (by decide)) (by decide) (by decide))⟩

/-! ### Claim C4 -/

/-- C4: the strandedness mapper sends `forward` to `--fr-stranded`,
`reverse` to `--rf-stranded`, `unstranded` to the empty string, and fails
(the dict lookup raises) on every other input, with no silent default. -/
theorem c4_theorem (s : String) (h1 : s ≠ "forward") (h2 : s ≠ "reverse")
    (h3 : s ≠ "unstranded") :
    parse_strandedness "forward" = some "--fr-stranded" ∧
    parse_strandedness "reverse" = some "--rf-stranded" ∧
    parse_strandedness "unstranded" = some "" ∧
    parse_strandedness s = none := by
  refine ⟨rfl, rfl, rfl, ?_⟩
  unfold parse_strandedness
  rw [if_neg h1, if_neg h2, if_neg h3]

/-- C4 witness: the mapper at the concrete unrecognized input `banana`. -/
theorem c4_witness :
    ("banana" : String) ≠ "forward" ∧ ("banana" : String) ≠ "reverse" ∧
    ("banana" : String) ≠ "unstranded" ∧
    (parse_strandedness "forward" = some "--fr-stranded" ∧
     parse_strandedness "reverse" = some "--rf-stranded" ∧
     parse_strandedness "unstranded" = some "" ∧
     parse_strandedness "banana" = none) :=
  ⟨by decide, by decide, by decide,
   c4_theorem "banana" (by decide) (by decide) (by decide)⟩

/-! ### Claim C5 -/

/-- C5 counterexample: with the pair `[r1.fq, a b]` the paired-ended
construction succeeds, but the final two tokens of the rendered command are
`a` and `b` — the second path was re-split at its space — so the final two
tokens are not the two supplied paths. -/
theorem c5_counterexample :
    (mkPairedEnd "idx" "out" 2 "unstranded" ["r1.fq", "a b"]).map
        (fun c => lastTwo c.command) = .ok ["a", "b"] ∧
    (["a", "b"] : List String) ≠ ["r1.fq", "a b"] := by
  decide

/-- C5 (amended): for whitespace/quote/backslash-free paths, rendering a
paired-ended configuration places the two paths as the final two tokens in
exactly the order supplied, and swapping the two inputs swaps the final two
output tokens. -/
theorem c5_amended (i o : String) (tn : Int) (strand d : String) (f1 f2 : String)
    (hd : parse_strandedness strand = some d)
    (hi : simpleStr i = true) (ho : simpleStr o = true)
    (hdd : d = "" ∨ simpleStr d = true)
    (h1 : simpleStr f1 = true) (h2 : simpleStr f2 = true) :
    lastTwo (peCmd (mkPairedEnd i o tn strand [f1, f2])) = [f1, f2] ∧
    lastTwo (peCmd (mkPairedEnd i o tn strand [f2, f1])) = [f2, f1] := by
  constructor
  · rw [mkPairedEnd_eq i o tn strand d f1 f2 [] hd hi ho hdd h1 h2]
    rcases hdd with he | hne
    · subst he
      simp [peCmd, lastTwo]
    · rw [if_neg (simpleStr_ne_empty hne)]
      simp [peCmd, lastTwo]
  · rw [mkPairedEnd_eq i o tn strand d f2 f1 [] hd hi ho hdd h2 h1]
    rcases hdd with he | hne
    · subst he
      simp [peCmd, lastTwo]
    · rw [if_neg (simpleStr_ne_empty hne)]
      simp [peCmd, lastTwo]

/-- C5 witness: the amended claim at concrete inputs, exhibiting the order
sensitivity at `r1.fq`, `r2.fq`. -/
theorem c5_witness :
    parse_strandedness "forward" = some "--fr-stranded" ∧
    (lastTwo (peCmd (mkPairedEnd "idx" "out" 2 "forward" ["r1.fq", "r2.fq"])) =
       ["r1.fq", "r2.fq"] ∧
     lastTwo (peCmd (mkPairedEnd "idx" "out" 2 "forward" ["r2.fq", "r1.fq"])) =
       ["r2.fq", "r1.fq"]) :=
  ⟨by decide,
   (c5_amended "idx" "out" 2 "forward" "--fr-stranded" "r1.fq" "r2.fq"
     (by decide) (by decide) (by decide) (Or.inr (by decide)) (by decide)
     (by decide))⟩

/-! ### Claim C6 -/

/-- C6 counterexample: a validated configuration with `unstranded`
strandedness whose index path consists of two single-quote characters
renders to a command containing an empty token (the quoted empty string
survives `shlex.split`), refuting "no empty token for every unstranded
configuration". -/
theorem c6_counterexample :
    "" ∈ seCmd (mkSingleEnd (String.mk [squote, squote]) "out" 4 "unstranded"
      200 "20" ["a.fq"]) := by
  decide

/-- C6 (amended): for configurations whose fields are
whitespace/quote/backslash-free, the `unstranded` rendering contains no
empty token and its length is exactly one less than the `forward` and
`reverse` renderings of the same configuration, in both modes. -/
theorem c6_amended (i o : String) (tn : Int) (fl : Int) (sd f f1 f2 : String)
    (hi : simpleStr i = true) (ho : simpleStr o = true)
    (hsd : simpleStr sd = true) (hf : simpleStr f = true)
    (h1 : simpleStr f1 = true) (h2 : simpleStr f2 = true) :
    ¬ "" ∈ seCmd (mkSingleEnd i o tn "unstranded" fl sd [f]) ∧
    (seCmd (mkSingleEnd i o tn "unstranded" fl sd [f])).length + 1 =
      (seCmd (mkSingleEnd i o tn "forward" fl sd [f])).length ∧
    (seCmd (mkSingleEnd i o tn "unstranded" fl sd [f])).length + 1 =
      (seCmd (mkSingleEnd i o tn "reverse" fl sd [f])).length ∧
    ¬ "" ∈ peCmd (mkPairedEnd i o tn "unstranded" [f1, f2]) ∧
    (peCmd (mkPairedEnd i o tn "unstranded" [f1, f2])).length + 1 =
      (peCmd (mkPairedEnd i o tn "forward" [f1, f2])).length ∧
    (peCmd (mkPairedEnd i o tn "unstranded" [f1, f2])).length + 1 =
      (peCmd (mkPairedEnd i o tn "reverse" [f1, f2])).length := by
  have hU := mkSingleEnd_eq i o tn "unstranded" "" fl sd f rfl hi ho
    (Or.inl rfl) hsd hf
  have hF := mkSingleEnd_eq i o tn "forward" "--fr-stranded" fl sd f rfl hi ho
    (Or.inr (by decide)) hsd hf
  have hR := mkSingleEnd_eq i o tn "reverse" "--rf-stranded" fl sd f rfl hi ho
    (Or.inr (by decide)) hsd hf
  have hpU := mkPairedEnd_eq i o tn "unstranded" "" f1 f2 [] rfl hi ho
    (Or.inl rfl) h1 h2
  have hpF := mkPairedEnd_eq i o tn "forward" "--fr-stranded" f1 f2 [] rfl hi ho
    (Or.inr (by decide)) h1 h2
  have hpR := mkPairedEnd_eq i o tn "reverse" "--rf-stranded" f1 f2 [] rfl hi ho
    (Or.inr (by decide)) h1 h2
  rw [hU, hF, hR, hpU, hpF, hpR]
  have ni : ¬ ("" : String) = i := fun h => simpleStr_ne_empty hi h.symm
  have no : ¬ ("" : String) = o := fun h => simpleStr_ne_empty ho h.symm
  have nt : ¬ ("" : String) = toString tn :=
    fun h => simpleStr_ne_empty (simpleStr_intToString tn) h.symm
  have nl : ¬ ("" : String) = toString fl :=
    fun h => simpleStr_ne_empty (simpleStr_intToString fl) h.symm
  have nsd : ¬ ("" : String) = sd := fun h => simpleStr_ne_empty hsd h.symm
  have nf : ¬ ("" : String) = f := fun h => simpleStr_ne_empty hf h.symm
  have n1 : ¬ ("" : String) = f1 := fun h => simpleStr_ne_empty h1 h.symm
  have n2 : ¬ ("" : String) = f2 := fun h => simpleStr_ne_empty h2 h.symm
  simp [seCmd, peCmd, ni, no, nt, nl, nsd, nf, n1, n2]

/-- C6 witness: the amended claim at concrete field values. -/
theorem c6_witness :
    simpleStr "idx" = true ∧ simpleStr "out" = true ∧ simpleStr "20" = true ∧
    simpleStr "a.fq" = true ∧ simpleStr "r1.fq" = true ∧
    simpleStr "r2.fq" = true ∧
    (¬ "" ∈ seCmd (mkSingleEnd "idx" "out" 4 "unstranded" 200 "20" ["a.fq"]) ∧
     (seCmd (mkSingleEnd "idx" "out" 4 "unstranded" 200 "20" ["a.fq"])).length + 1 =
       (seCmd (mkSingleEnd "idx" "out" 4 "forward" 200 "20" ["a.fq"])).length ∧
     (seCmd (mkSingleEnd "idx" "out" 4 "unstranded" 200 "20" ["a.fq"])).length + 1 =
       (seCmd (mkSingleEnd "idx" "out" 4 "reverse" 200 "20" ["a.fq"])).length ∧
     ¬ "" ∈ peCmd (mkPairedEnd "idx" "out" 4 "unstranded" ["r1.fq", "r2.fq"]) ∧
     (peCmd (mkPairedEnd "idx" "out" 4 "unstranded" ["r1.fq", "r2.fq"])).length + 1 =
       (peCmd (mkPairedEnd "idx" "out" 4 "forward" ["r1.fq", "r2.fq"])).length ∧
     (peCmd (mkPairedEnd "idx" "out" 4 "unstranded" ["r1.fq", "r2.fq"])).length + 1 =
       (peCmd (mkPairedEnd "idx" "out" 4 "reverse" ["r1.fq", "r2.fq"])).length) :=
  ⟨by decide, by decide, by decide, by decide, by decide, by decide,
   c6_amended "idx" "out" 4 200 "20" "a.fq" "r1.fq" "r2.fq" (by decide)
     (by decide) (by decide) (by decide) (by decide) (by decide)⟩

/-! ### Claim C7 -/

/-- C7 counterexample: construction succeeds with thread count 0 and with a
negative thread count in both modes — no error is raised and nothing is
defaulted — refuting "thread_count ≤ 0 is surfaced as an error". -/
theorem c7_counterexample :
    exceptOk (mkSingleEnd "idx" "out" 0 "forward" 200 "20" ["a.fq"]) = true ∧
    exceptOk (mkPairedEnd "idx" "out" (-3) "forward" ["r1.fq", "r2.fq"]) = true := by
  decide

/-- C7 (amended): the constructors do not validate the thread count: for
every integer thread count ≤ 0 (with otherwise valid, simple fields),
construction succeeds in both modes and the count's decimal rendering
appears verbatim in the rendered command — it is not defaulted. -/
theorem c7_amended (i o : String) (tn : Int) (strand d : String) (fl : Int)
    (sd f f1 f2 : String)
    (hd : parse_strandedness strand = some d)
    (htn : tn ≤ 0)
    (hi : simpleStr i = true) (ho : simpleStr o = true)
    (hdd : d = "" ∨ simpleStr d = true)
    (hsd : simpleStr sd = true) (hf : simpleStr f = true)
    (h1 : simpleStr f1 = true) (h2 : simpleStr f2 = true) :
    mkSingleEnd i o tn strand fl sd [f] =
      .ok { path_to_index := i, output_dir := o, number_of_threads := tn,
            strandedness_direction := d, fragment_length := fl,
            sd_of_fragment_length := sd, fastq := f,
            command := ["kallisto", "quant", "-i", i, "-o", o, "-t", toString tn,
                "--plaintext"] ++ (if d = "" then [] else [d])
              ++ ["--single", "-l", toString fl, "-s", sd, f] } ∧
    mkPairedEnd i o tn strand [f1, f2] =
      .ok { path_to_index := i, output_dir := o, number_of_threads := tn,
            strandedness_direction := d, fastq1 := f1, fastq2 := f2,
            command := ["kallisto", "quant", "-i", i, "-o", o, "-t", toString tn,
                "--plaintext"] ++ (if d = "" then [] else [d]) ++ [f1, f2] } :=
  ⟨mkSingleEnd_eq i o tn strand d fl sd f hd hi ho hdd hsd hf,
   mkPairedEnd_eq i o tn strand d f1 f2 [] hd hi ho hdd h1 h2⟩

/-- C7 witness: the amended claim at thread count 0. -/
theorem c7_witness :
    parse_strandedness "forward" = some "--fr-stranded" ∧ (0 : Int) ≤ 0 ∧
    (mkSingleEnd "idx" "out" 0 "forward" 200 "20" ["a.fq"] =
      .ok { path_to_index := "idx", output_dir := "out", number_of_threads := 0,
            strandedness_direction := "--fr-stranded", fragment_length := 200,
            sd_of_fragment_length := "20", fastq := "a.fq",
            command := ["kallisto", "quant", "-i", "idx", "-o", "out", "-t", "0",
              "--plaintext", "--fr-stranded", "--single", "-l", "200", "-s",
              "20", "a.fq"] } ∧
     mkPairedEnd "idx" "out" 0 "forward" ["r1.fq", "r2.fq"] =
      .ok { path_to_index := "idx", output_dir := "out", number_of_threads := 0,
            strandedness_direction := "--fr-stranded", fastq1 := "r1.fq",
            fastq2 := "r2.fq",
            command := ["kallisto", "quant", "-i", "idx", "-o", "out", "-t", "0",
              "--plaintext", "--fr-stranded", "r1.fq", "r2.fq"] }) :=
  ⟨by decide, by decide,
   (c7_amended "idx" "out" 0 "forward" "--fr-stranded" 200 "20" "a.fq" "r1.fq"
     "r2.fq" (by decide) (by decide) (by decide) (by decide)
     (Or.inr (by decide)) (by decide) (by decide) (by decide) (by decide))⟩

/-! ### Claim C8 -/

/-- Construction never emits a spawn event: the only side effect on any
construction path is the error log line of the failed length assertion. -/
lemma constructEvents_no_spawn (args : Args) (c : List String) :
    Event.spawn c ∉ constructEvents args := by
  intro h
  unfold constructEvents at h
  repeat' split at h
  all_goals simp at h

/-- C8: every process spawn in the observable behaviour of `main` happens
on a fully validated configuration — the spawned command is the command of
the successfully constructed instance — and the construction phase itself
emits no spawn: configuration-time errors surface before any external
process is started. -/
theorem c8_theorem (args : Args) (cmd : List String)
    (h : Event.spawn cmd ∈ mainEvents args) :
    instCommandOpt args = some cmd ∧
    (constructEvents args).all (fun e => !e.isSpawn) = true := by
  constructor
  · unfold mainEvents at h
    rw [List.mem_append] at h
    rcases h with h | h
    · exact absurd h (constructEvents_no_spawn args cmd)
    · unfold instCommandOpt
      cases hg : get_kallisto_quant_instance args with
      | none => rw [hg] at h; simp at h
      | some r =>
        cases r with
        | error e => rw [hg] at h; simp at h
        | ok inst =>
          rw [hg] at h
          simp only [runEvents, List.mem_cons, List.not_mem_nil, or_false] at h
          rcases h with h | h
          · exact absurd h (by simp)
          · simp only [Event.spawn.injEq] at h
            rw [h]
  · unfold constructEvents
    repeat' split
    all_goals decide

/-- C8 witness: on a concrete valid single-ended argument set, the spawn of
the rendered command is in the behaviour of `main`, and the theorem's
conclusion holds for it. -/
theorem c8_witness :
    Event.spawn ["kallisto", "quant", "-i", "idx", "-o", "out", "-t", "4",
        "--plaintext", "--fr-stranded", "--single", "-l", "200", "-s", "20",
        "a.fq.gz"] ∈
      mainEvents ⟨"single", "idx", "out", 4, "forward", 200, "20", ["a.fq.gz"]⟩ ∧
    (instCommandOpt ⟨"single", "idx", "out", 4, "forward", 200, "20", ["a.fq.gz"]⟩ =
       some ["kallisto", "quant", "-i", "idx", "-o", "out", "-t", "4",
         "--plaintext", "--fr-stranded", "--single", "-l", "200", "-s", "20",
         "a.fq.gz"] ∧
     (constructEvents ⟨"single", "idx", "out", 4, "forward", 200, "20",
        ["a.fq.gz"]⟩).all (fun e => !e.isSpawn) = true) :=
  ⟨by decide,
   c8_theorem ⟨"single", "idx", "out", 4, "forward", 200, "20", ["a.fq.gz"]⟩
     ["kallisto", "quant", "-i", "idx", "-o", "out", "-t", "4", "--plaintext",
      "--fr-stranded", "--single", "-l", "200", "-s", "20", "a.fq.gz"]
     (by decide)⟩

/-! ### Claim C9 -/

/-- C9: rendering is deterministic and has no hidden state: the command
stored by a successful construction is exactly what re-rendering the
configuration from its stored fields produces, so rendering the same
configuration any number of times yields the same token sequence. -/
theorem c9_theorem (i o : String) (tn : Int) (strand : String) (fl : Int)
    (sd : String) (fastqs fastqs2 : List String)
    (c : SingleEndConfig) (p : PairedEndConfig)
    (hc : mkSingleEnd i o tn strand fl sd fastqs = .ok c)
    (hp : mkPairedEnd i o tn strand fastqs2 = .ok p) :
    renderSingle c = some c.command ∧ renderPaired p = some p.command := by
  constructor
  · unfold mkSingleEnd at hc
    split at hc
    · simp at hc
    · split at hc
      · split at hc
        · rename_i d hps f cmd hsp
          simp only [Except.ok.injEq] at hc
          subst hc
          exact hsp
        · simp at hc
      · simp at hc
  · unfold mkPairedEnd at hp
    split at hp
    · simp at hp
    · split at hp
      · split at hp
        · rename_i d hps f1 f2 rest cmd hsp
          simp only [Except.ok.injEq] at hp
          subst hp
          exact hsp
        · simp at hp
      · simp at hp

/-- C9 witness: the theorem at a concrete pair of constructions. -/
theorem c9_witness :
    mkSingleEnd "idx" "out" 4 "forward" 200 "20" ["a.fq.gz"] =
      .ok { path_to_index := "idx", output_dir := "out", number_of_threads := 4,
            strandedness_direction := "--fr-stranded", fragment_length := 200,
            sd_of_fragment_length := "20", fastq := "a.fq.gz",
            command := ["kallisto", "quant", "-i", "idx", "-o", "out", "-t", "4",
              "--plaintext", "--fr-stranded", "--single", "-l", "200", "-s",
              "20", "a.fq.gz"] } ∧
    mkPairedEnd "idx" "out" 4 "forward" ["r1.fq", "r2.fq"] =
      .ok { path_to_index := "idx", output_dir := "out", number_of_threads := 4,
            strandedness_direction := "--fr-stranded", fastq1 := "r1.fq",
            fastq2 := "r2.fq",
            command := ["kallisto", "quant", "-i", "idx", "-o", "out", "-t", "4",
              "--plaintext", "--fr-stranded", "r1.fq", "r2.fq"] } ∧
    (renderSingle
        { path_to_index := "idx", output_dir := "out", number_of_threads := 4,
          strandedness_direction := "--fr-stranded", fragment_length := 200,
          sd_of_fragment_length := "20", fastq := "a.fq.gz",
          command := ["kallisto", "quant", "-i", "idx", "-o", "out", "-t", "4",
            "--plaintext", "--fr-stranded", "--single", "-l", "200", "-s", "20",
            "a.fq.gz"] } =
      some ["kallisto", "quant", "-i", "idx", "-o", "out", "-t", "4",
        "--plaintext", "--fr-stranded", "--single", "-l", "200", "-s", "20",
        "a.fq.gz"] ∧
     renderPaired
        { path_to_index := "idx", output_dir := "out", number_of_threads := 4,
          strandedness_direction := "--fr-stranded", fastq1 := "r1.fq",
          fastq2 := "r2.fq",
          command := ["kallisto", "quant", "-i", "idx", "-o", "out", "-t", "4",
            "--plaintext", "--fr-stranded", "r1.fq", "r2.fq"] } =
      some ["kallisto", "quant", "-i", "idx", "-o", "out", "-t", "4",
        "--plaintext", "--fr-stranded", "r1.fq", "r2.fq"]) :=
  ⟨by decide, by decide,
   c9_theorem "idx" "out" 4 "forward" 200 "20" ["a.fq.gz"] ["r1.fq", "r2.fq"]
     _ _ (by decide) (by decide)⟩

/-! ### Claim C10 -/

/-- C10: for every argument set whose endedness is neither `single` nor
`paired`, the variant selector constructs nothing and returns `None` — it
neither raises nor defaults to a variant. -/
theorem c10_theorem (args : Args) (h1 : args.endedness ≠ "single")
    (h2 : args.endedness ≠ "paired") :
    get_kallisto_quant_instance args = none := by
  unfold get_kallisto_quant_instance
  rw [if_neg h2, if_neg h1]

/-- C10 witness: the selector at the concrete endedness `both`. -/
theorem c10_witness :
    ("both" : String) ≠ "single" ∧ ("both" : String) ≠ "paired" ∧
    get_kallisto_quant_instance
      ⟨"both", "idx", "out", 4, "forward", 200, "20", ["a.fq.gz"]⟩ = none :=
  ⟨by decide, by decide,
   c10_theorem ⟨"both", "idx", "out", 4, "forward", 200, "20", ["a.fq.gz"]⟩
     (by decide) (by decide)⟩

end KallistoQuantModel

